import Mathlib

/-!
Shallow embedding of the Uno NLP solver core (C++ sources under `src/`),
with doubles modelled as exact rationals. Definitions mirror the control
flow of the corresponding C++ functions; theorems check the spec claims.
-/

namespace Uno

/-- Termination statuses of the driver (`Uno.hpp` / `Uno.cpp`). -/
inductive TerminationStatus
  | NOT_OPTIMAL
  | FEASIBLE_KKT_POINT
  | FJ_POINT
  | INFEASIBLE_KKT_POINT
  | FEASIBLE_SMALL_STEP
  | INFEASIBLE_SMALL_STEP
  deriving DecidableEq, Repr

/-- The residual block of an `Iterate` (`iterate.residuals`). -/
structure Residuals where
  infeasibility : ℚ
  optimality_stationarity : ℚ
  feasibility_stationarity : ℚ
  optimality_complementarity : ℚ
  feasibility_complementarity : ℚ
  stationarity_scaling : ℚ
  complementarity_scaling : ℚ
  deriving DecidableEq, Repr

/-- Constraint and bound duals (`Multipliers`), plus the objective multiplier. -/
structure Multipliers where
  constraints : List ℚ
  lower_bounds : List ℚ
  upper_bounds : List ℚ
  objective : ℚ
  deriving DecidableEq, Repr

/-- `not_all_zero_multipliers` in `Uno.cpp`: some constraint multiplier or some
summed pair of bound multipliers exceeds the tolerance in absolute value. -/
def not_all_zero_multipliers (number_variables : ℕ) (multipliers : Multipliers)
    (tolerance : ℚ) : Bool :=
  multipliers.constraints.any (fun multiplier_j => decide (tolerance < |multiplier_j|)) ||
  (List.range number_variables).any (fun i =>
    decide (tolerance < |multipliers.lower_bounds.getD i 0 + multipliers.upper_bounds.getD i 0|))

/-- The small-step test `step_norm <= tolerance / small_step_factor` of
`Uno::check_termination`; `none` models the initial step norm `INF<double>`,
for which the test is false. -/
def small_step_test (tolerance small_step_factor : ℚ) (step_norm : Option ℚ) : Bool :=
  match step_norm with
  | none => false
  | some s => decide (s ≤ tolerance / small_step_factor)

/-- `Uno::check_termination` (`src/uno/Uno.cpp`), translated branch for branch. -/
def check_termination (tolerance small_step_factor : ℚ) (number_variables : ℕ)
    (residuals : Residuals) (multipliers : Multipliers) (step_norm : Option ℚ) :
    TerminationStatus :=
  let optimality_stationarity :=
    decide (residuals.optimality_stationarity / residuals.stationarity_scaling ≤ tolerance)
  let feasibility_stationarity :=
    decide (residuals.feasibility_stationarity / residuals.stationarity_scaling ≤ tolerance)
  let optimality_complementarity :=
    decide (residuals.optimality_complementarity / residuals.complementarity_scaling ≤ tolerance)
  let feasibility_complementarity :=
    decide (residuals.feasibility_complementarity / residuals.complementarity_scaling ≤ tolerance)
  let primal_feasibility := decide (residuals.infeasibility ≤ tolerance)
  let no_trivial_duals := not_all_zero_multipliers number_variables multipliers tolerance
  if optimality_complementarity && primal_feasibility then
    if feasibility_stationarity && no_trivial_duals then
      TerminationStatus.FJ_POINT
    else if decide (0 < multipliers.objective) && optimality_stationarity then
      TerminationStatus.FEASIBLE_KKT_POINT
    else if small_step_test tolerance small_step_factor step_norm then
      if primal_feasibility then TerminationStatus.FEASIBLE_SMALL_STEP
      else TerminationStatus.INFEASIBLE_SMALL_STEP
    else TerminationStatus.NOT_OPTIMAL
  else if feasibility_complementarity && feasibility_stationarity then
    TerminationStatus.INFEASIBLE_KKT_POINT
  else if small_step_test tolerance small_step_factor step_norm then
    if primal_feasibility then TerminationStatus.FEASIBLE_SMALL_STEP
    else TerminationStatus.INFEASIBLE_SMALL_STEP
  else TerminationStatus.NOT_OPTIMAL

/-- A `{lb, ub}` pair (`Range` in the C++ sources). -/
structure Bounds where
  lb : ℚ
  ub : ℚ
  deriving DecidableEq, Repr

/-- The immutable problem description fields used by the embedded functions. -/
structure ProblemData where
  number_variables : ℕ
  number_constraints : ℕ
  variables_bounds : List Bounds
  constraint_bounds : List Bounds
  deriving DecidableEq, Repr

/-- `Subproblem::set_variables_bounds` (`src/src/base/subproblem/Subproblem.cpp`):
for each original variable index, intersect the shifted variable bounds with the
trust region. The loop over `i` is a fold over `List.range`. -/
def set_variables_bounds (problem : ProblemData) (x : List ℚ) (trust_region_radius : ℚ)
    (variables_bounds : List Bounds) : List Bounds :=
  (List.range problem.number_variables).foldl
    (fun bounds i =>
      let lb := max (-trust_region_radius) ((problem.variables_bounds.getD i ⟨0, 0⟩).lb - x.getD i 0)
      let ub := min trust_region_radius ((problem.variables_bounds.getD i ⟨0, 0⟩).ub - x.getD i 0)
      bounds.set i ⟨lb, ub⟩)
    variables_bounds

/-- `Subproblem::set_constraints_bounds` (`src/src/base/subproblem/Subproblem.cpp`):
shift the constraint bounds by the current constraint values. -/
def set_constraints_bounds (problem : ProblemData) (current_constraints : List ℚ)
    (constraints_bounds : List Bounds) : List Bounds :=
  (List.range problem.number_constraints).foldl
    (fun bounds j =>
      let lb := (problem.constraint_bounds.getD j ⟨0, 0⟩).lb - current_constraints.getD j 0
      let ub := (problem.constraint_bounds.getD j ⟨0, 0⟩).ub - current_constraints.getD j 0
      bounds.set j ⟨lb, ub⟩)
    constraints_bounds

/-- Infinity norm of the multiplier block `solution[n .. n+m)`; the C++ helper
`norm_inf(solution, start, length)` is a library function outside `src/`, the spec
describes the test as `‖λ‖_∞ ≤ multipliers_max_norm` on that block. -/
def norm_inf_block (solution : List ℚ) (start length : ℕ) : ℚ :=
  ((List.range length).map (fun j => |solution.getD (start + j) 0|)).foldl max 0

/-- The tail of `Subproblem::compute_least_square_multipliers`
(`src/src/base/subproblem/Subproblem.cpp`): given the solution of the
least-squares linear system, copy the multiplier block into `multipliers`
when its infinity norm is within `multipliers_max_size`, otherwise leave
`multipliers` untouched. `n` is `current_iterate.x.size()`. -/
def compute_least_square_multipliers_update (n m : ℕ) (solution : List ℚ)
    (multipliers_max_size : ℚ) (multipliers : List ℚ) : List ℚ :=
  if norm_inf_block solution n m ≤ multipliers_max_size then
    (List.range m).foldl (fun mult j => mult.set j (solution.getD (n + j) 0)) multipliers
  else
    multipliers

/-! ### Helper lemmas about fold-and-set loops -/

/-- Folding `List.set` over a list of indices keeps the list length. -/
theorem length_foldl_set {α : Type} (value : ℕ → α) (L : List ℕ) (l : List α) :
    (L.foldl (fun acc j => acc.set j (value j)) l).length = l.length := by
  induction L generalizing l with
  | nil => rfl
  | cons a t ih => simpa using ih (l.set a (value a))

/-- An index not written by the fold keeps its original entry. -/
theorem getD_foldl_set_not_mem {α : Type} (value : ℕ → α) (L : List ℕ) (l : List α)
    (i : ℕ) (d : α) (hi : i ∉ L) :
    (L.foldl (fun acc j => acc.set j (value j)) l).getD i d = l.getD i d := by
  induction L generalizing l with
  | nil => rfl
  | cons a t ih =>
    simp only [List.mem_cons, not_or] at hi
    simp only [List.foldl_cons]
    rw [ih _ hi.2]
    simp only [List.getD, List.get?_eq_getElem?]
    rw [List.getElem?_set_ne (by exact fun h => hi.1 h.symm)]

/-- An in-range index written by the fold holds its (index-determined) value. -/
theorem getD_foldl_set_mem {α : Type} (value : ℕ → α) (L : List ℕ) (l : List α)
    (i : ℕ) (d : α) (hi : i ∈ L) (hlen : i < l.length) :
    (L.foldl (fun acc j => acc.set j (value j)) l).getD i d = value i := by
  induction L generalizing l with
  | nil => cases hi
  | cons a t ih =>
    simp only [List.foldl_cons]
    by_cases hmem : i ∈ t
    · exact ih _ hmem (by simpa using hlen)
    · have hai : a = i := by
        rcases List.mem_cons.mp hi with h | h
        · exact h.symm
        · exact absurd h hmem
      subst hai
      rw [getD_foldl_set_not_mem _ _ _ _ _ hmem]
      simp only [List.getD, List.get?_eq_getElem?]
      rw [List.getElem?_set_eq_of_lt _ hlen]
      rfl

/-- Specialisation to `List.range n`: the fold writes every index below `n`. -/
theorem getD_foldl_range_set {α : Type} (value : ℕ → α) (n : ℕ) (l : List α)
    (i : ℕ) (d : α) (hi : i < n) (hlen : i < l.length) :
    ((List.range n).foldl (fun acc j => acc.set j (value j)) l).getD i d = value i :=
  getD_foldl_set_mem value (List.range n) l i d (List.mem_range.mpr hi) hlen

/-- Classification of a constraint under the linearised model
(`ConstraintPartition` in the C++ sources). -/
inductive ConstraintFeasibility
  | FEASIBLE
  | INFEASIBLE_LOWER
  | INFEASIBLE_UPPER
  deriving DecidableEq, Repr

/-- `ConstraintPartition`: index lists plus the per-constraint classification. -/
structure ConstraintPartition where
  feasible : List ℕ
  infeasible : List ℕ
  constraint_feasibility : List ConstraintFeasibility
  deriving DecidableEq, Repr

/-- The fields of a `Direction` used by the embedded functions. -/
structure Direction where
  x : List ℚ
  norm : ℚ
  objective : ℚ
  objective_multiplier : ℚ
  multipliers : Multipliers
  is_relaxed : Bool
  constraint_partition : ConstraintPartition
  deriving DecidableEq, Repr

/-- The `errors` block of an `Iterate`; only the constraint-violation error is
consumed by the embedded functions. -/
structure Errors where
  constraints : ℚ
  deriving DecidableEq, Repr

/-- The fields of an `Iterate` used by the embedded functions. Sparse rows of
the constraint Jacobian are association lists `(variable index, derivative)`. -/
structure Iterate where
  x : List ℚ
  multipliers : Multipliers
  constraints : List ℚ
  constraints_jacobian : List (List (ℕ × ℚ))
  errors : Errors
  progress : ℚ × ℚ
  objective : ℚ
  is_objective_computed : Bool
  residuals : Residuals
  deriving DecidableEq, Repr

/-- `dot(x, sparse_vector)`: sum of `derivative * x[index]` over the entries. -/
def dot (x : List ℚ) (v : List (ℕ × ℚ)) : ℚ :=
  (v.map (fun entry => x.getD entry.1 0 * entry.2)).sum

/-- Modelled from the spec: `Problem::compute_constraint_violation(c, j)` is not
under `src/`; the spec describes the term as the violated part of component `j`,
the distance of `c` outside `[cL_j, cU_j]`. -/
def constraint_violation_scalar (bounds : Bounds) (c : ℚ) : ℚ :=
  max (max 0 (bounds.lb - c)) (c - bounds.ub)

/-- `norm_1(f, m)`: the L1 norm of `(f 0, ..., f (m-1))`. -/
def norm_1_fn (f : ℕ → ℚ) (m : ℕ) : ℚ :=
  ((List.range m).map (fun j => |f j|)).sum

/-! ### C1: classification as INFEASIBLE_KKT_POINT -/

/-- C1 (amended): `Uno::check_termination` classifies the iterate as
`INFEASIBLE_KKT_POINT` iff the scaled feasibility complementarity residual is at
most the tolerance, the scaled feasibility stationarity residual is at most the
tolerance, and NOT (the scaled optimality complementarity residual is at most the
tolerance and the primal infeasibility residual is at most the tolerance).
(The claim's condition "primal infeasibility > tolerance" is what the `else`
branch actually requires only when optimality complementarity also holds.) -/
theorem check_termination_infeasible_kkt_iff
    (tolerance small_step_factor : ℚ) (number_variables : ℕ)
    (residuals : Residuals) (multipliers : Multipliers) (step_norm : Option ℚ) :
    check_termination tolerance small_step_factor number_variables residuals multipliers
        step_norm = TerminationStatus.INFEASIBLE_KKT_POINT ↔
      (residuals.feasibility_complementarity / residuals.complementarity_scaling ≤ tolerance ∧
       residuals.feasibility_stationarity / residuals.stationarity_scaling ≤ tolerance ∧
       ¬(residuals.optimality_complementarity / residuals.complementarity_scaling ≤ tolerance ∧
         residuals.infeasibility ≤ tolerance)) := by
  simp only [check_termination]
  split_ifs <;> simp_all

/-- Concrete residuals refuting C1 as stated: every residual vanishes except the
optimality complementarity residual. -/
def residualsC1 : Residuals :=
  { infeasibility := 0
    optimality_stationarity := 1
    feasibility_stationarity := 0
    optimality_complementarity := 1
    feasibility_complementarity := 0
    stationarity_scaling := 1
    complementarity_scaling := 1 }

/-- Empty multipliers for the C1 counterexample. -/
def multipliersC1 : Multipliers := ⟨[], [], [], 0⟩

/-- C1 counterexample: with tolerance `1/100`, a primal-feasible iterate
(`infeasibility = 0 ≤ tolerance`) whose optimality complementarity residual is
large is still classified `INFEASIBLE_KKT_POINT`, refuting the claim's
requirement that primal infeasibility be strictly greater than the tolerance. -/
theorem check_termination_infeasible_kkt_counterexample :
    check_termination (1/100) 100 1 residualsC1 multipliersC1 (some 1) =
        TerminationStatus.INFEASIBLE_KKT_POINT ∧
      residualsC1.infeasibility ≤ 1/100 := by
  constructor
  · norm_num [check_termination, residualsC1, multipliersC1, small_step_test,
      not_all_zero_multipliers]
  · norm_num [residualsC1]

/-! ### C6: subproblem variable and constraint bounds -/

/-- C6: after `Subproblem::set_variables_bounds` and
`Subproblem::set_constraints_bounds`, every original variable's subproblem bounds
are `[max(-Δ, xL_i − x_i), min(Δ, xU_i − x_i)]` and every constraint's subproblem
bounds are `[cL_j − c(x)_j, cU_j − c(x)_j]`. -/
theorem subproblem_bounds_spec (problem : ProblemData) (x : List ℚ)
    (trust_region_radius : ℚ) (current_constraints : List ℚ)
    (variables_bounds constraints_bounds : List Bounds)
    (hv : problem.number_variables ≤ variables_bounds.length)
    (hc : problem.number_constraints ≤ constraints_bounds.length) :
    (∀ i < problem.number_variables,
      (set_variables_bounds problem x trust_region_radius variables_bounds).getD i ⟨0, 0⟩ =
        ⟨max (-trust_region_radius) ((problem.variables_bounds.getD i ⟨0, 0⟩).lb - x.getD i 0),
         min trust_region_radius ((problem.variables_bounds.getD i ⟨0, 0⟩).ub - x.getD i 0)⟩) ∧
    (∀ j < problem.number_constraints,
      (set_constraints_bounds problem current_constraints constraints_bounds).getD j ⟨0, 0⟩ =
        ⟨(problem.constraint_bounds.getD j ⟨0, 0⟩).lb - current_constraints.getD j 0,
         (problem.constraint_bounds.getD j ⟨0, 0⟩).ub - current_constraints.getD j 0⟩) := by
  constructor
  · intro i hi
    have h := getD_foldl_range_set
      (fun i => (⟨max (-trust_region_radius) ((problem.variables_bounds.getD i ⟨0, 0⟩).lb - x.getD i 0),
                  min trust_region_radius ((problem.variables_bounds.getD i ⟨0, 0⟩).ub - x.getD i 0)⟩ : Bounds))
      problem.number_variables variables_bounds i ⟨0, 0⟩ hi (lt_of_lt_of_le hi hv)
    simpa [set_variables_bounds] using h
  · intro j hj
    have h := getD_foldl_range_set
      (fun j => (⟨(problem.constraint_bounds.getD j ⟨0, 0⟩).lb - current_constraints.getD j 0,
                  (problem.constraint_bounds.getD j ⟨0, 0⟩).ub - current_constraints.getD j 0⟩ : Bounds))
      problem.number_constraints constraints_bounds j ⟨0, 0⟩ hj (lt_of_lt_of_le hj hc)
    simpa [set_constraints_bounds] using h

/-- Concrete problem for the C6 witness: one variable in `[0, 1]`, one
constraint in `[-1, 4]`. -/
def problemC6 : ProblemData :=
  { number_variables := 1
    number_constraints := 1
    variables_bounds := [⟨0, 1⟩]
    constraint_bounds := [⟨-1, 4⟩] }

/-- C6 witness: at `x = (2)`, `c(x) = (3)`, radius `5`, the subproblem bounds
are `[max(-5, 0-2), min(5, 1-2)] = [-2, -1]` and `[-1-3, 4-3] = [-4, 1]`. -/
theorem subproblem_bounds_spec_witness :
    (set_variables_bounds problemC6 [2] 5 [⟨0, 0⟩]).getD 0 ⟨0, 0⟩ = ⟨-2, -1⟩ ∧
    (set_constraints_bounds problemC6 [3] [⟨0, 0⟩]).getD 0 ⟨0, 0⟩ = ⟨-4, 1⟩ := by
  have h := subproblem_bounds_spec problemC6 [2] 5 [3] [⟨0, 0⟩] [⟨0, 0⟩]
    (by decide) (by decide)
  refine ⟨?_, ?_⟩
  · rw [h.1 0 (by decide)]
    simp only [problemC6, Bounds.mk.injEq]
    norm_num
  · rw [h.2 0 (by decide)]
    simp only [problemC6, Bounds.mk.injEq]
    norm_num

/-! ### C7: least-squares multiplier acceptance -/

/-- C7: the least-squares multiplier block is copied into the output vector iff
its infinity norm is at most `multipliers_max_size`; otherwise the output vector
is left exactly at its initial value. -/
theorem compute_least_square_multipliers_spec (n m : ℕ) (solution : List ℚ)
    (multipliers_max_size : ℚ) (multipliers : List ℚ) (hm : m ≤ multipliers.length) :
    (norm_inf_block solution n m ≤ multipliers_max_size →
      ∀ j < m,
        (compute_least_square_multipliers_update n m solution multipliers_max_size
          multipliers).getD j 0 = solution.getD (n + j) 0) ∧
    (¬ norm_inf_block solution n m ≤ multipliers_max_size →
      compute_least_square_multipliers_update n m solution multipliers_max_size
        multipliers = multipliers) := by
  constructor
  · intro hnorm j hj
    have h := getD_foldl_range_set (fun j => solution.getD (n + j) 0) m multipliers j 0 hj
      (lt_of_lt_of_le hj hm)
    simpa [compute_least_square_multipliers_update, hnorm] using h
  · intro hnorm
    simp [compute_least_square_multipliers_update, hnorm]

/-- C7 witness: with `n = 2`, `m = 1`, solution `(0, 0, 3)` and norm cap `5`,
the multiplier block `(3)` has infinity norm `3 ≤ 5` and is written. -/
theorem compute_least_square_multipliers_spec_witness :
    (compute_least_square_multipliers_update 2 1 [0, 0, 3] 5 [9]).getD 0 0 = 3 :=
  (compute_least_square_multipliers_spec 2 1 [0, 0, 3] 5 [9] (by decide)).1
    (by decide) 0 (by decide)

/-! ### C4: predicted reduction of the l1 relaxation -/

/-- `l1Relaxation::compute_predicted_reduction`
(`src/uno/ingredients/constraint_relaxation/l1Relaxation.cpp`), with the
subproblem's predicted reduction model as an abstract function. -/
def l1_compute_predicted_reduction (problem : ProblemData) (current_iterate : Iterate)
    (direction : Direction) (predicted_reduction_model : ℚ → ℚ) (step_length : ℚ) : ℚ :=
  if step_length = 1 then
    current_iterate.errors.constraints + predicted_reduction_model step_length
  else
    let residual_function := fun j =>
      constraint_violation_scalar (problem.constraint_bounds.getD j ⟨0, 0⟩)
        (current_iterate.constraints.getD j 0 +
          step_length * dot direction.x (current_iterate.constraints_jacobian.getD j []))
    let linearized_constraint_violation :=
      norm_1_fn residual_function problem.number_constraints
    current_iterate.errors.constraints - linearized_constraint_violation +
      predicted_reduction_model step_length

/-- With ordered bounds, the scalar violation splits into the sum of the
lower-side and upper-side positive parts. -/
theorem constraint_violation_scalar_split (bounds : Bounds) (c : ℚ)
    (h : bounds.lb ≤ bounds.ub) :
    constraint_violation_scalar bounds c =
      max 0 (bounds.lb - c) + max 0 (c - bounds.ub) := by
  unfold constraint_violation_scalar
  rcases le_total bounds.lb c with h1 | h1
  · have e1 : max 0 (bounds.lb - c) = 0 := max_eq_left (by linarith)
    rw [e1, zero_add]
  · have e2 : max 0 (c - bounds.ub) = 0 := max_eq_left (by linarith)
    have e3 : max 0 (bounds.lb - c) = bounds.lb - c := max_eq_right (by linarith)
    rw [e2, e3, add_zero]
    exact max_eq_left (by linarith)

/-- The scalar violation is nonnegative. -/
theorem constraint_violation_scalar_nonneg (bounds : Bounds) (c : ℚ) :
    0 ≤ constraint_violation_scalar bounds c :=
  le_trans (le_max_left 0 (bounds.lb - c)) (le_max_left _ _)

/-- Sum over `List.range` equals the `Finset.range` sum. -/
theorem list_range_map_sum (f : ℕ → ℚ) (m : ℕ) :
    ((List.range m).map f).sum = ∑ j ∈ Finset.range m, f j := by
  induction m with
  | zero => simp
  | succ k ih => rw [List.range_succ, Finset.sum_range_succ]; simp [ih]

/-- C4: `l1Relaxation::compute_predicted_reduction` returns
`r0 + pr_sub(1)` at step length `1` and
`r0 − ‖(c(x) + α·∇c(x)·d)_violated‖₁ + pr_sub(α)` at step length `α ≠ 1`,
where `r0` is the current constraint-violation error, the violated part of a
component is its distance outside the constraint bounds, and `pr_sub` is the
subproblem's predicted reduction model. -/
theorem l1_compute_predicted_reduction_spec (problem : ProblemData)
    (current_iterate : Iterate) (direction : Direction)
    (predicted_reduction_model : ℚ → ℚ) (step_length : ℚ)
    (hbounds : ∀ j < problem.number_constraints,
      (problem.constraint_bounds.getD j ⟨0, 0⟩).lb ≤ (problem.constraint_bounds.getD j ⟨0, 0⟩).ub) :
    (step_length = 1 →
      l1_compute_predicted_reduction problem current_iterate direction
          predicted_reduction_model step_length =
        current_iterate.errors.constraints + predicted_reduction_model 1) ∧
    (step_length ≠ 1 →
      l1_compute_predicted_reduction problem current_iterate direction
          predicted_reduction_model step_length =
        current_iterate.errors.constraints -
          (∑ j ∈ Finset.range problem.number_constraints,
            (max 0 ((problem.constraint_bounds.getD j ⟨0, 0⟩).lb -
                (current_iterate.constraints.getD j 0 +
                  step_length * dot direction.x (current_iterate.constraints_jacobian.getD j []))) +
             max 0 ((current_iterate.constraints.getD j 0 +
                  step_length * dot direction.x (current_iterate.constraints_jacobian.getD j [])) -
                (problem.constraint_bounds.getD j ⟨0, 0⟩).ub))) +
          predicted_reduction_model step_length) := by
  constructor
  · intro h1
    simp [l1_compute_predicted_reduction, h1]
  · intro h1
    simp only [l1_compute_predicted_reduction, if_neg h1]
    have hnorm : norm_1_fn
        (fun j => constraint_violation_scalar (problem.constraint_bounds.getD j ⟨0, 0⟩)
          (current_iterate.constraints.getD j 0 +
            step_length * dot direction.x (current_iterate.constraints_jacobian.getD j [])))
        problem.number_constraints =
        ∑ j ∈ Finset.range problem.number_constraints,
          (max 0 ((problem.constraint_bounds.getD j ⟨0, 0⟩).lb -
              (current_iterate.constraints.getD j 0 +
                step_length * dot direction.x (current_iterate.constraints_jacobian.getD j []))) +
           max 0 ((current_iterate.constraints.getD j 0 +
                step_length * dot direction.x (current_iterate.constraints_jacobian.getD j [])) -
              (problem.constraint_bounds.getD j ⟨0, 0⟩).ub)) := by
      unfold norm_1_fn
      rw [list_range_map_sum]
      refine Finset.sum_congr rfl ?_
      intro j hj
      rw [abs_of_nonneg (constraint_violation_scalar_nonneg _ _)]
      exact constraint_violation_scalar_split _ _ (hbounds j (Finset.mem_range.mp hj))
    rw [hnorm]

/-- Concrete problem for the C4 witness: one constraint with bounds `[0, 1]`. -/
def problemC4 : ProblemData :=
  { number_variables := 1
    number_constraints := 1
    variables_bounds := [⟨0, 1⟩]
    constraint_bounds := [⟨0, 1⟩] }

/-- Concrete iterate for the C4 witness: `c(x) = (2)`, Jacobian row `∇c_0 = (1)`,
constraint-violation error `2`. -/
def iterateC4 : Iterate :=
  { x := [0]
    multipliers := ⟨[0], [0], [0], 1⟩
    constraints := [2]
    constraints_jacobian := [[(0, 1)]]
    errors := ⟨2⟩
    progress := (2, 0)
    objective := 0
    is_objective_computed := true
    residuals := ⟨0, 0, 0, 0, 0, 1, 1⟩ }

/-- Concrete direction for the C4 witness. -/
def directionC4 : Direction :=
  { x := [1]
    norm := 1
    objective := 0
    objective_multiplier := 1
    multipliers := ⟨[0], [0], [0], 1⟩
    is_relaxed := false
    constraint_partition := ⟨[0], [], [.FEASIBLE]⟩ }

/-- C4 witness: at step length `1/2`, the linearised component is
`2 + (1/2)·1 = 5/2`, its violation is `3/2`, so the predicted reduction is
`2 − 3/2 + 1/2 = 1` with `pr_sub = id`. -/
theorem l1_compute_predicted_reduction_spec_witness :
    l1_compute_predicted_reduction problemC4 iterateC4 directionC4 (fun a => a) (1/2) = 1 := by
  have hb : ∀ j < problemC4.number_constraints,
      (problemC4.constraint_bounds.getD j ⟨0, 0⟩).lb ≤ (problemC4.constraint_bounds.getD j ⟨0, 0⟩).ub := by
    intro j hj
    have hj0 : j = 0 := by
      simp [problemC4] at hj
      omega
    subst hj0
    norm_num [problemC4]
  have h := (l1_compute_predicted_reduction_spec problemC4 iterateC4 directionC4
    (fun a => a) (1/2) hb).2 (by norm_num)
  rw [h]
  norm_num [problemC4, iterateC4, directionC4, dot]

/-! ### C2 / C5: l1Relaxation penalty steering -/

/-- The steering constants of `l1Relaxation` (`l1RelaxationParameters`). -/
structure l1RelaxationParameters where
  initial_parameter : ℚ
  epsilon1 : ℚ
  epsilon2 : ℚ
  decrease_factor : ℚ
  deriving DecidableEq, Repr

/-- The elastic-variable side tables: `(constraint index, elastic variable index)`
pairs for the positive and negative elastics. -/
structure ElasticVariables where
  positive : List (ℕ × ℕ)
  negative : List (ℕ × ℕ)
  deriving DecidableEq, Repr

/-- `l1Relaxation::compute_linearized_constraint_residual`: sum of the elastic
components of the direction. -/
def compute_linearized_constraint_residual (elastic : ElasticVariables)
    (direction_x : List ℚ) : ℚ :=
  (elastic.positive.map (fun p => direction_x.getD p.2 0)).sum +
  (elastic.negative.map (fun p => direction_x.getD p.2 0)).sum

/-- A subproblem solve at a given objective multiplier; `solve_subproblem` /
`resolve_subproblem` overwrite `direction.objective_multiplier` with the
multiplier used. The solver itself (QP backend) is an abstract oracle. -/
def solved_direction (solver : ℚ → Direction) (objective_multiplier : ℚ) : Direction :=
  { solver objective_multiplier with objective_multiplier := objective_multiplier }

/-- The mutable state of the steering inner loop in
`l1Relaxation::solve_with_steering_rule`. -/
structure SteeringLoopState where
  penalty_parameter : ℚ
  direction : Direction
  linearized_residual : ℚ
  condition1 : Bool
  condition2 : Bool
  deriving DecidableEq, Repr

/-- Condition 1 of the steering loop (stage d): a fraction of the ideal decrease
of the linearised residual is reached; sticky once true. -/
def steering_condition1 (parameters : l1RelaxationParameters)
    (errors_constraints residual_lowest_violation : ℚ) (s : SteeringLoopState) : Bool :=
  s.condition1 ||
    decide ((residual_lowest_violation = 0 ∧ s.linearized_residual = 0) ∨
      (residual_lowest_violation ≠ 0 ∧
        errors_constraints - s.linearized_residual ≥
          parameters.epsilon1 * (errors_constraints - residual_lowest_violation)))

/-- Condition 2 of the steering loop (stage e): sufficient progress in merit. -/
def steering_condition2 (parameters : l1RelaxationParameters)
    (errors_constraints d0_objective : ℚ) (c1 : Bool) (s : SteeringLoopState) : Bool :=
  c1 && decide (errors_constraints - s.direction.objective ≥
    parameters.epsilon2 * (errors_constraints - d0_objective))

/-- The steering inner loop of `l1Relaxation::solve_with_steering_rule`
(`while (!condition2)`), with an explicit fuel bound on the iterations. -/
def steering_loop (parameters : l1RelaxationParameters) (solver : ℚ → Direction)
    (elastic : ElasticVariables)
    (errors_constraints residual_lowest_violation d0_objective : ℚ) :
    ℕ → SteeringLoopState → SteeringLoopState
  | 0, s => s
  | fuel + 1, s =>
    if s.condition2 then s
    else
      let c1 := steering_condition1 parameters errors_constraints residual_lowest_violation s
      let c2 := steering_condition2 parameters errors_constraints d0_objective c1 s
      if c2 then { s with condition1 := c1, condition2 := true }
      else
        let penalty := s.penalty_parameter / parameters.decrease_factor
        if penalty < 1 / 10 ^ 10 then
          { s with condition1 := c1, penalty_parameter := 0, condition2 := true }
        else
          let direction := solved_direction solver penalty
          steering_loop parameters solver elastic errors_constraints
            residual_lowest_violation d0_objective fuel
            { penalty_parameter := penalty, direction := direction,
              linearized_residual := compute_linearized_constraint_residual elastic direction.x,
              condition1 := c1, condition2 := false }

/-- Outcome of `l1Relaxation::solve_with_steering_rule`: the updated penalty
parameter, the returned direction, and whether the globalization strategy was
reset (because the penalty parameter strictly decreased). -/
structure SteeringResult where
  penalty_parameter : ℚ
  direction : Direction
  strategy_was_reset : Bool
  deriving DecidableEq, Repr

/-- Stages e/f of `l1Relaxation::solve_with_steering_rule` (the `else` block at
lines 133-180): update the penalty parameter from the ideal error, then run the
inner loop. Note the loop starts from the stage-a `linearized_residual`, which
is NOT recomputed after the stage-f re-solve, exactly as in the source. -/
def steering_stage_f (parameters : l1RelaxationParameters) (solver : ℚ → Direction)
    (elastic : ElasticVariables) (penalty_parameter errors_constraints : ℚ)
    (compute_error_at : Direction → ℚ) (fuel : ℕ)
    (direction direction_lowest_violation : Direction)
    (linearized_residual residual_lowest_violation : ℚ) : ℚ × Direction :=
  let error_lowest_violation := compute_error_at direction_lowest_violation
  if error_lowest_violation = 0 then
    (0, direction_lowest_violation)
  else
    let term := error_lowest_violation / max 1 errors_constraints
    let penalty1 := min penalty_parameter (term * term)
    let direction1 :=
      if penalty1 < penalty_parameter then
        if penalty1 = 0 then direction_lowest_violation
        else solved_direction solver penalty1
      else direction
    let final := steering_loop parameters solver elastic errors_constraints
      residual_lowest_violation direction_lowest_violation.objective fuel
      { penalty_parameter := penalty1, direction := direction1,
        linearized_residual := linearized_residual,
        condition1 := false, condition2 := false }
    (final.penalty_parameter, final.direction)

/-- Stages c-f of `l1Relaxation::solve_with_steering_rule` (the body of the
`linearized_residual != 0` branch): solve the lowest-violation problem and
update the penalty parameter and direction. -/
def steering_update (parameters : l1RelaxationParameters) (solver : ℚ → Direction)
    (elastic : ElasticVariables) (penalty_parameter errors_constraints : ℚ)
    (compute_error_at : Direction → ℚ) (fuel : ℕ) (direction : Direction)
    (linearized_residual : ℚ) : ℚ × Direction :=
  let direction_lowest_violation := solved_direction solver 0
  let residual_lowest_violation :=
    compute_linearized_constraint_residual elastic direction_lowest_violation.x
  if ¬(0 < errors_constraints ∧ residual_lowest_violation = errors_constraints) then
    steering_stage_f parameters solver elastic penalty_parameter errors_constraints
      compute_error_at fuel direction direction_lowest_violation
      linearized_residual residual_lowest_violation
  else (penalty_parameter, direction)

/-- `l1Relaxation::solve_with_steering_rule`
(`src/uno/ingredients/constraint_relaxation/l1Relaxation.cpp`).
`errors_constraints` is `current_iterate.errors.constraints`; `compute_error_at`
abstracts `l1Relaxation::compute_error` at zero penalty. -/
def solve_with_steering_rule (parameters : l1RelaxationParameters)
    (solver : ℚ → Direction) (elastic : ElasticVariables) (penalty_parameter : ℚ)
    (errors_constraints : ℚ) (compute_error_at : Direction → ℚ) (fuel : ℕ) :
    SteeringResult :=
  let direction := solved_direction solver penalty_parameter
  if 0 < penalty_parameter then
    let linearized_residual := compute_linearized_constraint_residual elastic direction.x
    if linearized_residual ≠ 0 then
      let updated := steering_update parameters solver elastic penalty_parameter
        errors_constraints compute_error_at fuel direction linearized_residual
      { penalty_parameter := updated.1, direction := updated.2,
        strategy_was_reset := decide (updated.1 < penalty_parameter) }
    else
      { penalty_parameter := penalty_parameter, direction := direction,
        strategy_was_reset := false }
  else
    { penalty_parameter := penalty_parameter, direction := direction,
      strategy_was_reset := false }

/-- Modelled from the spec: `l1Relaxation::remove_elastic_variables_from_direction`
is not under `src/`; per the spec, the temporary elastic variables are stripped
from the returned direction, leaving the primal displacement over the original
`n` variables only. -/
def remove_elastic_variables_from_direction (problem : ProblemData)
    (direction : Direction) : Direction :=
  { direction with x := direction.x.take problem.number_variables }

/-- `l1Relaxation::compute_feasible_direction`: steering rule, then removal of
the elastic variables from the direction. -/
def compute_feasible_direction (parameters : l1RelaxationParameters)
    (solver : ℚ → Direction) (elastic : ElasticVariables) (problem : ProblemData)
    (penalty_parameter errors_constraints : ℚ) (compute_error_at : Direction → ℚ)
    (fuel : ℕ) : Direction :=
  remove_elastic_variables_from_direction problem
    (solve_with_steering_rule parameters solver elastic penalty_parameter
      errors_constraints compute_error_at fuel).direction

/-- `l1Relaxation::solve_feasibility_problem`: re-solve with a zero objective
multiplier, then remove the elastic variables from the direction. -/
def l1_solve_feasibility_problem (problem : ProblemData) (solver : ℚ → Direction) :
    Direction :=
  remove_elastic_variables_from_direction problem (solved_direction solver 0)

/-- The steering inner loop never increases the (nonnegative) penalty parameter
when the decrease factor is at least one. -/
theorem steering_loop_penalty_le (parameters : l1RelaxationParameters)
    (solver : ℚ → Direction) (elastic : ElasticVariables) (ec rlv d0obj : ℚ)
    (hdf : 1 ≤ parameters.decrease_factor) :
    ∀ (fuel : ℕ) (s : SteeringLoopState), 0 ≤ s.penalty_parameter →
      0 ≤ (steering_loop parameters solver elastic ec rlv d0obj fuel s).penalty_parameter ∧
      (steering_loop parameters solver elastic ec rlv d0obj fuel s).penalty_parameter ≤
        s.penalty_parameter := by
  intro fuel
  induction fuel with
  | zero => exact fun s h0 => ⟨h0, le_refl _⟩
  | succ k ih =>
    intro s h0
    have hpos : (0 : ℚ) ≤ s.penalty_parameter / parameters.decrease_factor :=
      div_nonneg h0 (le_trans zero_le_one hdf)
    simp only [steering_loop]
    split_ifs with hc2 hc2new hclamp
    · exact ⟨h0, le_refl _⟩
    · exact ⟨h0, le_refl _⟩
    · exact ⟨le_refl _, h0⟩
    · refine ⟨(ih _ ?_).1, le_trans (ih _ ?_).2 (div_le_self h0 hdf)⟩ <;> exact hpos

/-- Once `condition2` holds, the steering loop is a fixpoint. -/
theorem steering_loop_fixpoint (parameters : l1RelaxationParameters)
    (solver : ℚ → Direction) (elastic : ElasticVariables) (ec rlv d0obj : ℚ)
    (fuel : ℕ) (s : SteeringLoopState) (h : s.condition2 = true) :
    steering_loop parameters solver elastic ec rlv d0obj fuel s = s := by
  cases fuel with
  | zero => rfl
  | succ k => simp [steering_loop, h]

/-- C2: the l1Relaxation penalty parameter is non-increasing across
`solve_with_steering_rule` (for any subproblem-solver behaviour), and whenever
the steering inner loop divides the penalty parameter by the decrease factor and
the quotient is strictly below `10⁻¹⁰`, the penalty parameter is set exactly to
`0` and the loop exits (the clamped state is returned and is a fixpoint of the
loop). -/
theorem l1_solve_with_steering_rule_penalty_monotone
    (parameters : l1RelaxationParameters) (solver : ℚ → Direction)
    (elastic : ElasticVariables) (penalty_parameter errors_constraints : ℚ)
    (compute_error_at : Direction → ℚ) (fuel : ℕ)
    (h0 : 0 ≤ penalty_parameter) (hdf : 1 ≤ parameters.decrease_factor) :
    (solve_with_steering_rule parameters solver elastic penalty_parameter
      errors_constraints compute_error_at fuel).penalty_parameter ≤ penalty_parameter ∧
    (∀ (rlv d0obj : ℚ) (s : SteeringLoopState) (fl : ℕ),
      s.condition2 = false →
      steering_condition2 parameters errors_constraints d0obj
        (steering_condition1 parameters errors_constraints rlv s) s = false →
      s.penalty_parameter / parameters.decrease_factor < 1 / 10 ^ 10 →
      steering_loop parameters solver elastic errors_constraints rlv d0obj (fl + 1) s =
        { s with condition1 := steering_condition1 parameters errors_constraints rlv s,
                 penalty_parameter := 0, condition2 := true } ∧
      (∀ fl2 : ℕ,
        steering_loop parameters solver elastic errors_constraints rlv d0obj fl2
          { s with condition1 := steering_condition1 parameters errors_constraints rlv s,
                   penalty_parameter := 0, condition2 := true } =
          { s with condition1 := steering_condition1 parameters errors_constraints rlv s,
                   penalty_parameter := 0, condition2 := true })) := by
  constructor
  · have hstage : ∀ (direction direction_lowest_violation : Direction)
        (linearized_residual residual_lowest_violation : ℚ),
        (steering_stage_f parameters solver elastic penalty_parameter errors_constraints
          compute_error_at fuel direction direction_lowest_violation
          linearized_residual residual_lowest_violation).1 ≤ penalty_parameter := by
      intro direction direction_lowest_violation linearized_residual residual_lowest_violation
      have hloop : ∀ d1 : Direction,
          (steering_loop parameters solver elastic errors_constraints
            residual_lowest_violation direction_lowest_violation.objective fuel
            { penalty_parameter := min penalty_parameter
                ((compute_error_at direction_lowest_violation / max 1 errors_constraints) *
                 (compute_error_at direction_lowest_violation / max 1 errors_constraints)),
              direction := d1, linearized_residual := linearized_residual,
              condition1 := false, condition2 := false }).penalty_parameter ≤
            penalty_parameter := by
        intro d1
        have h := steering_loop_penalty_le parameters solver elastic errors_constraints
          residual_lowest_violation direction_lowest_violation.objective hdf fuel
          { penalty_parameter := min penalty_parameter
              ((compute_error_at direction_lowest_violation / max 1 errors_constraints) *
               (compute_error_at direction_lowest_violation / max 1 errors_constraints)),
            direction := d1, linearized_residual := linearized_residual,
            condition1 := false, condition2 := false }
          (le_min h0 (mul_self_nonneg _))
        exact le_trans h.2 (min_le_left _ _)
      simp only [steering_stage_f]
      split_ifs with he h5 h6
      · exact h0
      · exact hloop _
      · exact hloop _
      · exact hloop _
    have hupdate : ∀ (direction : Direction) (linearized_residual : ℚ),
        (steering_update parameters solver elastic penalty_parameter errors_constraints
          compute_error_at fuel direction linearized_residual).1 ≤ penalty_parameter := by
      intro direction linearized_residual
      simp only [steering_update]
      split_ifs with hideal
      · exact le_refl _
      · exact hstage _ _ _ _
    simp only [solve_with_steering_rule]
    split_ifs with h1 h2
    · exact hupdate _ _
    · exact le_refl _
    · exact le_refl _
  · intro rlv d0obj s fl hc2 hcond2 hclamp
    constructor
    · simp only [steering_loop]
      rw [if_neg (by simp [hc2]), if_neg (by simp [hcond2]), if_pos hclamp]
    · intro fl2
      exact steering_loop_fixpoint parameters solver elastic errors_constraints rlv d0obj fl2 _ rfl

/-- Concrete direction for the C2 witness. -/
def directionC2 : Direction :=
  { x := [0, 0]
    norm := 0
    objective := 0
    objective_multiplier := 1
    multipliers := ⟨[0], [0, 0], [0, 0], 1⟩
    is_relaxed := false
    constraint_partition := ⟨[0], [], [.FEASIBLE]⟩ }

/-- Steering parameters for the C2 witness (the `byrd` preset constants with
decrease factor `10`). -/
def parametersC2 : l1RelaxationParameters := ⟨1, 1/10, 1/10, 10⟩

/-- C2 witness: with a constant solver, no elastics, initial penalty `1` and
decrease factor `10`, the returned penalty parameter is at most `1`. -/
theorem l1_solve_with_steering_rule_penalty_monotone_witness :
    (solve_with_steering_rule parametersC2 (fun _ => directionC2) ⟨[], []⟩ 1 0
      (fun _ => 0) 3).penalty_parameter ≤ 1 :=
  (l1_solve_with_steering_rule_penalty_monotone parametersC2 (fun _ => directionC2)
    ⟨[], []⟩ 1 0 (fun _ => 0) 3 (by norm_num) (by norm_num [parametersC2])).1

/-- Every direction handled by the steering loop has a primal displacement taken
verbatim from some subproblem solve. -/
theorem steering_loop_direction_from_solver (parameters : l1RelaxationParameters)
    (solver : ℚ → Direction) (elastic : ElasticVariables) (ec rlv d0obj : ℚ) :
    ∀ (fuel : ℕ) (s : SteeringLoopState), (∃ ρ, s.direction.x = (solver ρ).x) →
      ∃ ρ, (steering_loop parameters solver elastic ec rlv d0obj fuel s).direction.x =
        (solver ρ).x := by
  intro fuel
  induction fuel with
  | zero => exact fun s h => h
  | succ k ih =>
    intro s h
    simp only [steering_loop]
    split_ifs with hc2 hc2new hclamp
    · exact h
    · exact h
    · exact h
    · exact ih _ ⟨s.penalty_parameter / parameters.decrease_factor, rfl⟩

/-- The direction returned by `solve_with_steering_rule` has a primal
displacement taken verbatim from some subproblem solve. -/
theorem solve_with_steering_rule_direction_from_solver
    (parameters : l1RelaxationParameters) (solver : ℚ → Direction)
    (elastic : ElasticVariables) (penalty_parameter errors_constraints : ℚ)
    (compute_error_at : Direction → ℚ) (fuel : ℕ) :
    ∃ ρ, (solve_with_steering_rule parameters solver elastic penalty_parameter
      errors_constraints compute_error_at fuel).direction.x = (solver ρ).x := by
  have hstage : ∀ (direction direction_lowest_violation : Direction)
      (linearized_residual residual_lowest_violation : ℚ),
      (∃ ρ, direction.x = (solver ρ).x) →
      (∃ ρ, direction_lowest_violation.x = (solver ρ).x) →
      ∃ ρ, (steering_stage_f parameters solver elastic penalty_parameter
        errors_constraints compute_error_at fuel direction direction_lowest_violation
        linearized_residual residual_lowest_violation).2.x = (solver ρ).x := by
    intro direction direction_lowest_violation linearized_residual residual_lowest_violation
      hd hdlv
    have hloop : ∀ d1 : Direction, (∃ ρ, d1.x = (solver ρ).x) →
        ∃ ρ, (steering_loop parameters solver elastic errors_constraints
          residual_lowest_violation direction_lowest_violation.objective fuel
          { penalty_parameter := min penalty_parameter
              ((compute_error_at direction_lowest_violation / max 1 errors_constraints) *
               (compute_error_at direction_lowest_violation / max 1 errors_constraints)),
            direction := d1, linearized_residual := linearized_residual,
            condition1 := false, condition2 := false }).direction.x = (solver ρ).x := by
      intro d1 hd1
      exact steering_loop_direction_from_solver parameters solver elastic
        errors_constraints residual_lowest_violation direction_lowest_violation.objective
        fuel
        { penalty_parameter := min penalty_parameter
            ((compute_error_at direction_lowest_violation / max 1 errors_constraints) *
             (compute_error_at direction_lowest_violation / max 1 errors_constraints)),
          direction := d1, linearized_residual := linearized_residual,
          condition1 := false, condition2 := false } hd1
    simp only [steering_stage_f]
    split_ifs with he h5 h6
    · exact hdlv
    · exact hloop _ hdlv
    · exact hloop _ ⟨_, rfl⟩
    · exact hloop _ hd
  have hupdate : ∀ (direction : Direction) (linearized_residual : ℚ),
      (∃ ρ, direction.x = (solver ρ).x) →
      ∃ ρ, (steering_update parameters solver elastic penalty_parameter
        errors_constraints compute_error_at fuel direction linearized_residual).2.x =
        (solver ρ).x := by
    intro direction linearized_residual hd
    simp only [steering_update]
    split_ifs with hideal
    · exact hd
    · exact hstage _ _ _ _ hd ⟨0, rfl⟩
  simp only [solve_with_steering_rule]
  split_ifs with h1 h2
  · exact hupdate _ _ ⟨penalty_parameter, rfl⟩
  · exact ⟨penalty_parameter, rfl⟩
  · exact ⟨penalty_parameter, rfl⟩

/-- C5: directions returned by `l1Relaxation::compute_feasible_direction` and
`l1Relaxation::solve_feasibility_problem` have their elastic components removed:
if every subproblem solve returns a primal displacement of length
`n + #elastics`, the returned directions have primal displacement of length
exactly `n`. -/
theorem l1_directions_have_original_length
    (parameters : l1RelaxationParameters) (solver : ℚ → Direction)
    (elastic : ElasticVariables) (problem : ProblemData)
    (penalty_parameter errors_constraints : ℚ) (compute_error_at : Direction → ℚ)
    (fuel : ℕ) (number_elastic_variables : ℕ)
    (hsolver : ∀ ρ, (solver ρ).x.length =
      problem.number_variables + number_elastic_variables) :
    (compute_feasible_direction parameters solver elastic problem penalty_parameter
      errors_constraints compute_error_at fuel).x.length = problem.number_variables ∧
    (l1_solve_feasibility_problem problem solver).x.length = problem.number_variables := by
  constructor
  · obtain ⟨ρ, hx⟩ := solve_with_steering_rule_direction_from_solver parameters solver
      elastic penalty_parameter errors_constraints compute_error_at fuel
    simp only [compute_feasible_direction, remove_elastic_variables_from_direction,
      List.length_take, hx, hsolver ρ]
    exact min_eq_left (Nat.le_add_right _ _)
  · simp only [l1_solve_feasibility_problem, remove_elastic_variables_from_direction,
      solved_direction, List.length_take, hsolver 0]
    exact min_eq_left (Nat.le_add_right _ _)

/-- Concrete problem for the C5 witness: one original variable, one constraint. -/
def problemC5 : ProblemData :=
  { number_variables := 1
    number_constraints := 1
    variables_bounds := [⟨0, 1⟩]
    constraint_bounds := [⟨0, 1⟩] }

/-- C5 witness: with one original variable and one elastic variable, the solver
returns displacements of length `2` and both returned directions have primal
displacement of length `1`. -/
theorem l1_directions_have_original_length_witness :
    (compute_feasible_direction parametersC2 (fun _ => directionC2) ⟨[], [(0, 1)]⟩
      problemC5 1 0 (fun _ => 0) 3).x.length = 1 ∧
    (l1_solve_feasibility_problem problemC5 (fun _ => directionC2)).x.length = 1 :=
  l1_directions_have_original_length parametersC2 (fun _ => directionC2) ⟨[], [(0, 1)]⟩
    problemC5 1 0 (fun _ => 0) 3 1 (fun _ => rfl)

/-! ### C3 / C8 / C10: FeasibilityRestoration and l1Relaxation acceptance -/

/-- The two phases of `FeasibilityRestoration`. -/
inductive Phase
  | OPTIMALITY
  | FEASIBILITY_RESTORATION
  deriving DecidableEq, Repr

/-- Calls observed by a globalization strategy: `reset()` and
`notify(iterate)` (which records the iterate's progress pair). -/
inductive StrategyEvent
  | reset
  | notify (progress : ℚ × ℚ)
  deriving DecidableEq, Repr

/-- Evaluations performed during an `is_acceptable` call. -/
inductive EvalEvent
  | progress_measures_current
  | progress_measures_trial
  | infeasibility_measures_current
  | infeasibility_measures_trial
  | predicted_reduction_evaluation
  | acceptance_test
  | optimality_conditions
  | residuals_computation
  deriving DecidableEq, Repr

/-- Modelled from the spec: `Problem::compute_constraint_violation(c, L1_NORM)`
is not under `src/`; the spec says it returns the residual of all constraints
under the L1 norm. -/
def compute_constraint_violation_list (problem : ProblemData) (constraints : List ℚ) : ℚ :=
  norm_1_fn
    (fun j => constraint_violation_scalar (problem.constraint_bounds.getD j ⟨0, 0⟩)
      (constraints.getD j 0))
    problem.number_constraints

/-- Modelled from the spec: the subset overload
`Problem::compute_constraint_violation(c, indices, L1_NORM)` is not under
`src/`; it is the L1 residual over the given constraint indices. -/
def compute_constraint_violation_subset (problem : ProblemData) (constraints : List ℚ)
    (indices : List ℕ) : ℚ :=
  (indices.map (fun j => |constraint_violation_scalar (problem.constraint_bounds.getD j ⟨0, 0⟩)
    (constraints.getD j 0)|)).sum

/-- `FeasibilityRestoration::compute_infeasibility_measures`
(`src/src/base/constraint_relaxation/FeasibilityRestoration.cpp`): feasibility
measure = residual of all constraints, optimality measure = residual of the
linearly infeasible constraints. `constraints_fn` abstracts the constraint
evaluator; the cache flag is dropped since the evaluation is deterministic. -/
def compute_infeasibility_measures (problem : ProblemData)
    (constraints_fn : List ℚ → List ℚ) (iterate : Iterate)
    (constraint_partition : ConstraintPartition) : Iterate :=
  let constraints := constraints_fn iterate.x
  let feasibility := compute_constraint_violation_list problem constraints
  let objective := compute_constraint_violation_subset problem constraints
    constraint_partition.infeasible
  { iterate with constraints := constraints, progress := (feasibility, objective) }

/-- `FeasibilityRestoration::set_restoration_multipliers`: each linearly
infeasible constraint's multiplier becomes `+1` (violated lower bound) or `-1`
(violated upper bound); the other multipliers are left as they are. The C++
writes `1` or `-1` inside the branch; here the branch is on the written value. -/
def set_restoration_multipliers (constraints_multipliers : List ℚ)
    (constraint_partition : ConstraintPartition) : List ℚ :=
  constraint_partition.infeasible.foldl
    (fun multipliers j =>
      multipliers.set j
        (if constraint_partition.constraint_feasibility.getD j .FEASIBLE =
            ConstraintFeasibility.INFEASIBLE_LOWER then 1 else -1))
    constraints_multipliers

/-- The collaborators of `FeasibilityRestoration::is_acceptable`, as abstract
oracles: constraint/objective evaluators, the subproblem's progress measures and
predicted reduction, the two strategies' acceptance tests and the residual
computation. -/
structure FeasibilityRestorationContext where
  problem : ProblemData
  constraints_fn : List ℚ → List ℚ
  objective_fn : List ℚ → ℚ
  subproblem_progress : Iterate → ℚ × ℚ
  predicted : ℚ → ℚ
  phase_1_accepts : (ℚ × ℚ) → (ℚ × ℚ) → ℚ → ℚ → Bool
  phase_2_accepts : (ℚ × ℚ) → (ℚ × ℚ) → ℚ → ℚ → Bool
  residuals_fn : Iterate → Residuals

/-- The mutable state of `FeasibilityRestoration` observed by `is_acceptable`:
the phase, the subproblem-definition flag, and the strategies' observed calls. -/
structure FeasibilityRestorationState where
  current_phase : Phase
  subproblem_definition_changed : Bool
  phase_1_events : List StrategyEvent
  phase_2_events : List StrategyEvent
  deriving DecidableEq, Repr

/-- Everything `FeasibilityRestoration::is_acceptable` produces or mutates. -/
structure FeasibilityRestorationOutcome where
  accept : Bool
  state : FeasibilityRestorationState
  current_iterate : Iterate
  trial_iterate : Iterate
  events : List EvalEvent
  deriving Repr

/-- `Iterate::compute_objective`: evaluate and cache the objective unless it is
already computed. -/
def compute_objective (objective_fn : List ℚ → ℚ) (iterate : Iterate) : Iterate :=
  if iterate.is_objective_computed then iterate
  else { iterate with objective := objective_fn iterate.x, is_objective_computed := true }

/-- The accept-block of `FeasibilityRestoration::is_acceptable` (lines 125-134):
on acceptance of a relaxed direction rewrite the trial multipliers of the
infeasible constraints, then evaluate the objective and the residuals. -/
def FR_accept_block (ctx : FeasibilityRestorationContext) (direction : Direction)
    (trial_iterate : Iterate) : Iterate :=
  let trial1 :=
    if direction.is_relaxed then
      { trial_iterate with multipliers := { trial_iterate.multipliers with
          constraints := set_restoration_multipliers trial_iterate.multipliers.constraints
            direction.constraint_partition } }
    else trial_iterate
  let trial2 := compute_objective ctx.objective_fn trial1
  { trial2 with residuals := ctx.residuals_fn trial2 }

/-- The subproblem-definition pre-block of both `is_acceptable` functions
(reset the strategy, clear the flag, recompute the current progress measures). -/
def FR_pre (ctx : FeasibilityRestorationContext) (st : FeasibilityRestorationState)
    (current_iterate : Iterate) :
    FeasibilityRestorationState × Iterate × List EvalEvent :=
  if st.subproblem_definition_changed then
    ({ st with subproblem_definition_changed := false,
               phase_2_events := st.phase_2_events ++ [StrategyEvent.reset] },
     { current_iterate with progress := ctx.subproblem_progress current_iterate },
     [EvalEvent.progress_measures_current])
  else (st, current_iterate, ([] : List EvalEvent))

/-- The two phase transitions of `FeasibilityRestoration::is_acceptable`
(lines 91-106). -/
def FR_transition (ctx : FeasibilityRestorationContext) (direction : Direction)
    (st1 : FeasibilityRestorationState) (current1 : Iterate)
    (events1 : List EvalEvent) :
    FeasibilityRestorationState × Iterate × List EvalEvent :=
  if direction.is_relaxed = false ∧ st1.current_phase = Phase.FEASIBILITY_RESTORATION then
    ({ st1 with current_phase := Phase.OPTIMALITY },
     { current1 with progress := ctx.subproblem_progress current1 },
     events1 ++ [EvalEvent.progress_measures_current])
  else if direction.is_relaxed = true ∧ st1.current_phase = Phase.OPTIMALITY then
    let current2 := compute_infeasibility_measures ctx.problem ctx.constraints_fn
      current1 direction.constraint_partition
    ({ st1 with current_phase := Phase.FEASIBILITY_RESTORATION,
                phase_2_events := st1.phase_2_events ++
                  [StrategyEvent.notify current1.progress],
                phase_1_events := st1.phase_1_events ++
                  [StrategyEvent.reset, StrategyEvent.notify current2.progress] },
     current2,
     events1 ++ [EvalEvent.infeasibility_measures_current])
  else (st1, current1, events1)

/-- The per-phase trial progress measures of
`FeasibilityRestoration::is_acceptable` (lines 108-114). -/
def FR_trial_measures (ctx : FeasibilityRestorationContext) (direction : Direction)
    (st2 : FeasibilityRestorationState) (trial_iterate : Iterate)
    (events2 : List EvalEvent) : Iterate × List EvalEvent :=
  if st2.current_phase = Phase.FEASIBILITY_RESTORATION then
    (compute_infeasibility_measures ctx.problem ctx.constraints_fn trial_iterate
      direction.constraint_partition,
     events2 ++ [EvalEvent.infeasibility_measures_trial])
  else
    ({ trial_iterate with progress := ctx.subproblem_progress trial_iterate },
     events2 ++ [EvalEvent.progress_measures_trial])

/-- `FeasibilityRestoration::is_acceptable`
(`src/src/base/constraint_relaxation/FeasibilityRestoration.cpp`), translated
block for block: the subproblem-definition pre-block, the zero-step shortcut,
the two phase transitions, the per-phase trial progress measures, the predicted
reduction, the chosen strategy's acceptance test, and the accept-block. -/
def FR_is_acceptable (ctx : FeasibilityRestorationContext)
    (st : FeasibilityRestorationState) (current_iterate trial_iterate : Iterate)
    (direction : Direction) (step_length : ℚ) : FeasibilityRestorationOutcome :=
  let pre := FR_pre ctx st current_iterate
  let st1 := pre.1
  let current1 := pre.2.1
  let events1 := pre.2.2
  let step_norm := step_length * direction.norm
  if step_norm = 0 then
    { accept := true, state := st1, current_iterate := current1,
      trial_iterate := FR_accept_block ctx direction trial_iterate,
      events := events1 ++ [EvalEvent.residuals_computation] }
  else
    let trans := FR_transition ctx direction st1 current1 events1
    let st2 := trans.1
    let current2 := trans.2.1
    let events2 := trans.2.2
    let trialMeasured := FR_trial_measures ctx direction st2 trial_iterate events2
    let trial1 := trialMeasured.1
    let events3 := trialMeasured.2
    let predicted_reduction := ctx.predicted step_length
    let accept :=
      if st2.current_phase = Phase.OPTIMALITY then
        ctx.phase_2_accepts current2.progress trial1.progress
          direction.objective_multiplier predicted_reduction
      else
        ctx.phase_1_accepts current2.progress trial1.progress
          direction.objective_multiplier predicted_reduction
    let events4 := events3 ++
      [EvalEvent.predicted_reduction_evaluation, EvalEvent.acceptance_test]
    if accept then
      { accept := true, state := st2, current_iterate := current2,
        trial_iterate := FR_accept_block ctx direction trial1,
        events := events4 ++ [EvalEvent.residuals_computation] }
    else
      { accept := false, state := st2, current_iterate := current2,
        trial_iterate := trial1, events := events4 }

/-- The collaborators of `l1Relaxation::is_acceptable`, as abstract oracles. -/
structure l1Context where
  problem : ProblemData
  subproblem_progress : Iterate → ℚ × ℚ
  strategy_accepts : (ℚ × ℚ) → (ℚ × ℚ) → ℚ → ℚ → Bool

/-- The mutable state of `l1Relaxation` observed by `is_acceptable`. -/
structure l1State where
  penalty_parameter : ℚ
  subproblem_definition_changed : Bool
  strategy_events : List StrategyEvent
  deriving DecidableEq, Repr

/-- Everything `l1Relaxation::is_acceptable` produces or mutates. -/
structure l1AcceptanceOutcome where
  accept : Bool
  state : l1State
  current_iterate : Iterate
  trial_iterate : Iterate
  events : List EvalEvent
  deriving Repr

/-- `l1Relaxation::is_acceptable`
(`src/uno/ingredients/constraint_relaxation/l1Relaxation.cpp` lines 75-102):
pre-block, zero-norm shortcut, trial progress measures, the l1 predicted
reduction (the function embedded for C4), the strategy's acceptance test, and
optimality conditions on acceptance. -/
def l1_is_acceptable (ctx : l1Context) (st : l1State)
    (current_iterate trial_iterate : Iterate) (direction : Direction)
    (predicted_reduction_model : ℚ → ℚ) (step_length : ℚ) : l1AcceptanceOutcome :=
  let pre :=
    if st.subproblem_definition_changed then
      ({ st with subproblem_definition_changed := false,
                 strategy_events := st.strategy_events ++ [StrategyEvent.reset] },
       { current_iterate with progress := ctx.subproblem_progress current_iterate },
       [EvalEvent.progress_measures_current])
    else (st, current_iterate, ([] : List EvalEvent))
  let st1 := pre.1
  let current1 := pre.2.1
  let events1 := pre.2.2
  if direction.norm = 0 then
    { accept := true, state := st1, current_iterate := current1,
      trial_iterate := trial_iterate,
      events := events1 ++ [EvalEvent.optimality_conditions] }
  else
    let trial1 := { trial_iterate with progress := ctx.subproblem_progress trial_iterate }
    let predicted_reduction := l1_compute_predicted_reduction ctx.problem current1
      direction predicted_reduction_model step_length
    let accept := ctx.strategy_accepts current1.progress trial1.progress
      st1.penalty_parameter predicted_reduction
    let events2 := events1 ++ [EvalEvent.progress_measures_trial,
      EvalEvent.predicted_reduction_evaluation, EvalEvent.acceptance_test]
    if accept then
      { accept := true, state := st1, current_iterate := current1,
        trial_iterate := trial1,
        events := events2 ++ [EvalEvent.optimality_conditions] }
    else
      { accept := false, state := st1, current_iterate := current1,
        trial_iterate := trial1, events := events2 }

/-- C3 (amended): with a nonzero step, the phase after
`FeasibilityRestoration::is_acceptable` is FEASIBILITY_RESTORATION exactly when
the direction is relaxed and OPTIMALITY exactly when it is not. On the
OPTIMALITY → FEASIBILITY_RESTORATION transition the abandoned phase-2 strategy
is notified with the current iterate and the entering phase-1 strategy is reset
and then notified with the re-measured current iterate. On the
FEASIBILITY_RESTORATION → OPTIMALITY transition, however, neither strategy is
notified or reset (assuming the subproblem definition did not change, which
would independently reset the phase-2 strategy). -/
theorem FR_is_acceptable_phase_transitions (ctx : FeasibilityRestorationContext)
    (st : FeasibilityRestorationState) (current_iterate trial_iterate : Iterate)
    (direction : Direction) (step_length : ℚ)
    (hchg : st.subproblem_definition_changed = false)
    (hstep : ¬step_length * direction.norm = 0) :
    ((FR_is_acceptable ctx st current_iterate trial_iterate direction
        step_length).state.current_phase =
      (if direction.is_relaxed then Phase.FEASIBILITY_RESTORATION else Phase.OPTIMALITY)) ∧
    (st.current_phase = Phase.OPTIMALITY → direction.is_relaxed = true →
      (FR_is_acceptable ctx st current_iterate trial_iterate direction
          step_length).state.phase_2_events =
        st.phase_2_events ++ [StrategyEvent.notify current_iterate.progress] ∧
      (FR_is_acceptable ctx st current_iterate trial_iterate direction
          step_length).state.phase_1_events =
        st.phase_1_events ++
          [StrategyEvent.reset,
           StrategyEvent.notify (compute_infeasibility_measures ctx.problem
             ctx.constraints_fn current_iterate direction.constraint_partition).progress]) ∧
    (st.current_phase = Phase.FEASIBILITY_RESTORATION → direction.is_relaxed = false →
      (FR_is_acceptable ctx st current_iterate trial_iterate direction
          step_length).state.phase_1_events = st.phase_1_events ∧
      (FR_is_acceptable ctx st current_iterate trial_iterate direction
          step_length).state.phase_2_events = st.phase_2_events) := by
  cases hrel : direction.is_relaxed <;> cases hphase : st.current_phase <;>
    simp [FR_is_acceptable, FR_pre, FR_transition, FR_trial_measures, hchg, hstep,
      hrel, hphase] <;>
    split_ifs <;> simp_all

/-- Concrete problem for the C3 counterexample. -/
def problemC3 : ProblemData :=
  { number_variables := 1
    number_constraints := 1
    variables_bounds := [⟨0, 1⟩]
    constraint_bounds := [⟨0, 1⟩] }

/-- Concrete collaborators for the C3 counterexample: both strategies reject
every trial. -/
def contextC3 : FeasibilityRestorationContext :=
  { problem := problemC3
    constraints_fn := fun x => x
    objective_fn := fun _ => 0
    subproblem_progress := fun iterate => iterate.progress
    predicted := fun _ => 0
    phase_1_accepts := fun _ _ _ _ => false
    phase_2_accepts := fun _ _ _ _ => false
    residuals_fn := fun iterate => iterate.residuals }

/-- C3 counterexample state: restoration phase, no pending strategy calls. -/
def stateC3 : FeasibilityRestorationState :=
  { current_phase := Phase.FEASIBILITY_RESTORATION
    subproblem_definition_changed := false
    phase_1_events := []
    phase_2_events := [] }

/-- Concrete iterate for the C3 counterexample. -/
def iterateC3 : Iterate :=
  { x := [0]
    multipliers := ⟨[0], [0], [0], 1⟩
    constraints := [0]
    constraints_jacobian := [[(0, 1)]]
    errors := ⟨0⟩
    progress := (0, 0)
    objective := 0
    is_objective_computed := true
    residuals := ⟨0, 0, 0, 0, 0, 1, 1⟩ }

/-- Concrete non-relaxed direction with nonzero norm for the C3 counterexample. -/
def directionC3 : Direction :=
  { x := [1]
    norm := 1
    objective := 0
    objective_multiplier := 1
    multipliers := ⟨[0], [0], [0], 1⟩
    is_relaxed := false
    constraint_partition := ⟨[0], [], [.FEASIBLE]⟩ }

/-- C3 counterexample: a nonzero non-relaxed step taken in the restoration phase
switches the phase to OPTIMALITY, yet no strategy is notified and none is reset
(both event logs stay empty), refuting the claim that on each of the two
transitions the abandoned phase's strategy is notified and the entering phase's
strategy is reset. -/
theorem FR_phase_switch_counterexample :
    stateC3.current_phase = Phase.FEASIBILITY_RESTORATION ∧
    directionC3.is_relaxed = false ∧
    (FR_is_acceptable contextC3 stateC3 iterateC3 iterateC3 directionC3
      1).state.current_phase = Phase.OPTIMALITY ∧
    (FR_is_acceptable contextC3 stateC3 iterateC3 iterateC3 directionC3
      1).state.phase_1_events = [] ∧
    (FR_is_acceptable contextC3 stateC3 iterateC3 iterateC3 directionC3
      1).state.phase_2_events = [] := by
  refine ⟨rfl, rfl, ?_, ?_, ?_⟩ <;>
    norm_num [FR_is_acceptable, FR_pre, FR_transition, FR_trial_measures,
      contextC3, stateC3, iterateC3, directionC3]

/-- Concrete relaxed direction for the C3 witness. -/
def directionC3w : Direction :=
  { x := [1]
    norm := 1
    objective := 0
    objective_multiplier := 0
    multipliers := ⟨[0], [0], [0], 1⟩
    is_relaxed := true
    constraint_partition := ⟨[], [0], [.INFEASIBLE_LOWER]⟩ }

/-- C3 witness: from the OPTIMALITY phase, an accepted-or-not relaxed nonzero
step switches the phase to FEASIBILITY_RESTORATION. -/
theorem FR_is_acceptable_phase_transitions_witness :
    (FR_is_acceptable contextC3
      { current_phase := Phase.OPTIMALITY, subproblem_definition_changed := false,
        phase_1_events := [], phase_2_events := [] }
      iterateC3 iterateC3 directionC3w 1).state.current_phase =
      Phase.FEASIBILITY_RESTORATION := by
  have h := (FR_is_acceptable_phase_transitions contextC3
    { current_phase := Phase.OPTIMALITY, subproblem_definition_changed := false,
      phase_1_events := [], phase_2_events := [] }
    iterateC3 iterateC3 directionC3w 1 rfl (by norm_num [directionC3w])).1
  rw [h]
  norm_num [directionC3w]

/-- Pointwise behaviour of `set_restoration_multipliers` for a well-formed
partition (the infeasible index list holds exactly the in-range indices not
classified FEASIBLE, as the QP solver builds it). -/
theorem set_restoration_multipliers_spec (constraints_multipliers : List ℚ)
    (cp : ConstraintPartition)
    (hwf : ∀ j, j ∈ cp.infeasible ↔
      (j < cp.constraint_feasibility.length ∧
       cp.constraint_feasibility.getD j .FEASIBLE ≠ ConstraintFeasibility.FEASIBLE))
    (hlen : ∀ j ∈ cp.infeasible, j < constraints_multipliers.length) :
    ∀ j,
      (cp.constraint_feasibility.getD j .FEASIBLE = ConstraintFeasibility.INFEASIBLE_LOWER →
        (set_restoration_multipliers constraints_multipliers cp).getD j 0 = 1) ∧
      (cp.constraint_feasibility.getD j .FEASIBLE = ConstraintFeasibility.INFEASIBLE_UPPER →
        (set_restoration_multipliers constraints_multipliers cp).getD j 0 = -1) ∧
      (cp.constraint_feasibility.getD j .FEASIBLE = ConstraintFeasibility.FEASIBLE →
        (set_restoration_multipliers constraints_multipliers cp).getD j 0 =
          constraints_multipliers.getD j 0) := by
  intro j
  have hbound : cp.constraint_feasibility.getD j .FEASIBLE ≠ ConstraintFeasibility.FEASIBLE →
      j < cp.constraint_feasibility.length := by
    intro hne
    by_contra hge
    exact hne (List.getD_eq_default _ _ (Nat.le_of_not_lt hge))
  refine ⟨?_, ?_, ?_⟩
  · intro hj
    have hmem : j ∈ cp.infeasible :=
      (hwf j).mpr ⟨hbound (by rw [hj]; decide), by rw [hj]; decide⟩
    have h := getD_foldl_set_mem
      (fun j => if cp.constraint_feasibility.getD j .FEASIBLE =
          ConstraintFeasibility.INFEASIBLE_LOWER then (1 : ℚ) else -1)
      cp.infeasible constraints_multipliers j 0 hmem (hlen j hmem)
    dsimp only at h
    unfold set_restoration_multipliers
    rw [h, if_pos hj]
  · intro hj
    have hmem : j ∈ cp.infeasible :=
      (hwf j).mpr ⟨hbound (by rw [hj]; decide), by rw [hj]; decide⟩
    have h := getD_foldl_set_mem
      (fun j => if cp.constraint_feasibility.getD j .FEASIBLE =
          ConstraintFeasibility.INFEASIBLE_LOWER then (1 : ℚ) else -1)
      cp.infeasible constraints_multipliers j 0 hmem (hlen j hmem)
    dsimp only at h
    unfold set_restoration_multipliers
    rw [h, if_neg (by rw [hj]; decide)]
  · intro hj
    have hmem : j ∉ cp.infeasible := by
      intro hmem
      exact ((hwf j).mp hmem).2 hj
    have h := getD_foldl_set_not_mem
      (fun j => if cp.constraint_feasibility.getD j .FEASIBLE =
          ConstraintFeasibility.INFEASIBLE_LOWER then (1 : ℚ) else -1)
      cp.infeasible constraints_multipliers j 0 hmem
    unfold set_restoration_multipliers
    rw [h]

/-- When `FeasibilityRestoration::is_acceptable` accepts a relaxed direction,
the trial iterate's constraint multipliers are exactly the restoration rewrite
of the incoming trial multipliers. -/
theorem FR_accepted_relaxed_trial_multipliers (ctx : FeasibilityRestorationContext)
    (st : FeasibilityRestorationState) (current_iterate trial_iterate : Iterate)
    (direction : Direction) (step_length : ℚ)
    (hrel : direction.is_relaxed = true)
    (hacc : (FR_is_acceptable ctx st current_iterate trial_iterate direction
      step_length).accept = true) :
    (FR_is_acceptable ctx st current_iterate trial_iterate direction
      step_length).trial_iterate.multipliers.constraints =
      set_restoration_multipliers trial_iterate.multipliers.constraints
        direction.constraint_partition := by
  have hblock : ∀ t : Iterate, (FR_accept_block ctx direction t).multipliers.constraints =
      set_restoration_multipliers t.multipliers.constraints
        direction.constraint_partition := by
    intro t
    simp only [FR_accept_block, compute_objective, hrel]
    split_ifs <;> simp
  have hmeas : ∀ (st2 : FeasibilityRestorationState) (events2 : List EvalEvent),
      (FR_trial_measures ctx direction st2 trial_iterate events2).1.multipliers =
        trial_iterate.multipliers := by
    intro st2 events2
    simp only [FR_trial_measures, compute_infeasibility_measures]
    split_ifs <;> rfl
  simp only [FR_is_acceptable] at hacc ⊢
  split_ifs at hacc ⊢ <;> simp_all [hblock, hmeas]

/-- C8: when `FeasibilityRestoration::is_acceptable` accepts a relaxed trial
direction (with a well-formed constraint partition and in-range infeasible
indices), every constraint classified INFEASIBLE_LOWER gets trial multiplier
`+1`, every constraint classified INFEASIBLE_UPPER gets `-1`, and the
multipliers of all FEASIBLE constraints are left unchanged. -/
theorem FR_accepted_relaxed_restoration_multipliers
    (ctx : FeasibilityRestorationContext) (st : FeasibilityRestorationState)
    (current_iterate trial_iterate : Iterate) (direction : Direction)
    (step_length : ℚ)
    (hrel : direction.is_relaxed = true)
    (hacc : (FR_is_acceptable ctx st current_iterate trial_iterate direction
      step_length).accept = true)
    (hwf : ∀ j, j ∈ direction.constraint_partition.infeasible ↔
      (j < direction.constraint_partition.constraint_feasibility.length ∧
       direction.constraint_partition.constraint_feasibility.getD j .FEASIBLE ≠
         ConstraintFeasibility.FEASIBLE))
    (hlen : ∀ j ∈ direction.constraint_partition.infeasible,
      j < trial_iterate.multipliers.constraints.length) :
    ∀ j,
      (direction.constraint_partition.constraint_feasibility.getD j .FEASIBLE =
          ConstraintFeasibility.INFEASIBLE_LOWER →
        (FR_is_acceptable ctx st current_iterate trial_iterate direction
          step_length).trial_iterate.multipliers.constraints.getD j 0 = 1) ∧
      (direction.constraint_partition.constraint_feasibility.getD j .FEASIBLE =
          ConstraintFeasibility.INFEASIBLE_UPPER →
        (FR_is_acceptable ctx st current_iterate trial_iterate direction
          step_length).trial_iterate.multipliers.constraints.getD j 0 = -1) ∧
      (direction.constraint_partition.constraint_feasibility.getD j .FEASIBLE =
          ConstraintFeasibility.FEASIBLE →
        (FR_is_acceptable ctx st current_iterate trial_iterate direction
          step_length).trial_iterate.multipliers.constraints.getD j 0 =
          trial_iterate.multipliers.constraints.getD j 0) := by
  rw [FR_accepted_relaxed_trial_multipliers ctx st current_iterate trial_iterate
    direction step_length hrel hacc]
  exact set_restoration_multipliers_spec trial_iterate.multipliers.constraints
    direction.constraint_partition hwf hlen

/-- Concrete relaxed direction for the C8 witness: constraint 0 violates its
lower bound, constraint 1 violates its upper bound, constraint 2 is feasible. -/
def directionC8 : Direction :=
  { x := [1]
    norm := 1
    objective := 0
    objective_multiplier := 0
    multipliers := ⟨[0, 0, 0], [0], [0], 1⟩
    is_relaxed := true
    constraint_partition :=
      ⟨[2], [0, 1], [.INFEASIBLE_LOWER, .INFEASIBLE_UPPER, .FEASIBLE]⟩ }

/-- Concrete trial iterate for the C8 witness, with multipliers `(5, 5, 5)`. -/
def trialC8 : Iterate :=
  { x := [0]
    multipliers := ⟨[5, 5, 5], [0], [0], 1⟩
    constraints := [0, 0, 0]
    constraints_jacobian := [[(0, 1)], [(0, 1)], [(0, 1)]]
    errors := ⟨0⟩
    progress := (0, 0)
    objective := 0
    is_objective_computed := true
    residuals := ⟨0, 0, 0, 0, 0, 1, 1⟩ }

/-- C8 witness: a zero step is accepted, the direction is relaxed, and the trial
multipliers become `(1, -1, 5)`. -/
theorem FR_accepted_relaxed_restoration_multipliers_witness :
    ((FR_is_acceptable contextC3 stateC3 iterateC3 trialC8 directionC8
        0).trial_iterate.multipliers.constraints.getD 0 0 = 1) ∧
    ((FR_is_acceptable contextC3 stateC3 iterateC3 trialC8 directionC8
        0).trial_iterate.multipliers.constraints.getD 1 0 = -1) ∧
    ((FR_is_acceptable contextC3 stateC3 iterateC3 trialC8 directionC8
        0).trial_iterate.multipliers.constraints.getD 2 0 = 5) := by
  have hacc : (FR_is_acceptable contextC3 stateC3 iterateC3 trialC8 directionC8
      0).accept = true := by
    norm_num [FR_is_acceptable, FR_pre, stateC3]
  have h := FR_accepted_relaxed_restoration_multipliers contextC3 stateC3 iterateC3
    trialC8 directionC8 0 rfl hacc
    (by intro j; constructor
        · intro hj
          fin_cases hj <;> simp [directionC8]
        · intro hj
          obtain ⟨hj1, hj2⟩ := hj
          simp [directionC8] at hj1 hj2 ⊢
          interval_cases j <;> simp_all)
    (by intro j hj; fin_cases hj <;> simp [directionC8, trialC8])
  exact ⟨(h 0).1 rfl, (h 1).2.1 rfl, (h 2).2.2 rfl⟩

/-- C10: in both constraint-relaxation strategies a zero step is accepted
unconditionally: when `direction.norm = 0` (l1Relaxation) or
`step_length * direction.norm = 0` (FeasibilityRestoration), `is_acceptable`
returns true without measuring the trial's progress, without evaluating the
predicted reduction and without consulting the globalization strategy's
acceptance test. -/
theorem zero_step_is_accepted_unconditionally
    (l1ctx : l1Context) (l1st : l1State) (current1 trial1 : Iterate)
    (direction1 : Direction) (predicted_reduction_model : ℚ → ℚ) (step1 : ℚ)
    (frctx : FeasibilityRestorationContext) (frst : FeasibilityRestorationState)
    (current2 trial2 : Iterate) (direction2 : Direction) (step2 : ℚ)
    (h1 : direction1.norm = 0) (h2 : step2 * direction2.norm = 0) :
    ((l1_is_acceptable l1ctx l1st current1 trial1 direction1
        predicted_reduction_model step1).accept = true ∧
      EvalEvent.progress_measures_trial ∉
        (l1_is_acceptable l1ctx l1st current1 trial1 direction1
          predicted_reduction_model step1).events ∧
      EvalEvent.infeasibility_measures_trial ∉
        (l1_is_acceptable l1ctx l1st current1 trial1 direction1
          predicted_reduction_model step1).events ∧
      EvalEvent.predicted_reduction_evaluation ∉
        (l1_is_acceptable l1ctx l1st current1 trial1 direction1
          predicted_reduction_model step1).events ∧
      EvalEvent.acceptance_test ∉
        (l1_is_acceptable l1ctx l1st current1 trial1 direction1
          predicted_reduction_model step1).events) ∧
    ((FR_is_acceptable frctx frst current2 trial2 direction2 step2).accept = true ∧
      EvalEvent.progress_measures_trial ∉
        (FR_is_acceptable frctx frst current2 trial2 direction2 step2).events ∧
      EvalEvent.infeasibility_measures_trial ∉
        (FR_is_acceptable frctx frst current2 trial2 direction2 step2).events ∧
      EvalEvent.predicted_reduction_evaluation ∉
        (FR_is_acceptable frctx frst current2 trial2 direction2 step2).events ∧
      EvalEvent.acceptance_test ∉
        (FR_is_acceptable frctx frst current2 trial2 direction2 step2).events) := by
  constructor
  · cases hc : l1st.subproblem_definition_changed <;>
      simp [l1_is_acceptable, h1, hc]
  · cases hc : frst.subproblem_definition_changed <;>
      simp [FR_is_acceptable, FR_pre, h2, hc]

/-- l1Relaxation collaborators for the C10 witness; the strategy rejects every
trial, so only the zero-step shortcut can accept. -/
def l1ContextC10 : l1Context :=
  { problem := problemC3
    subproblem_progress := fun iterate => iterate.progress
    strategy_accepts := fun _ _ _ _ => false }

/-- l1Relaxation state for the C10 witness. -/
def l1StateC10 : l1State :=
  { penalty_parameter := 1
    subproblem_definition_changed := false
    strategy_events := [] }

/-- A zero-norm direction for the C10 witness. -/
def directionC10 : Direction :=
  { x := [0]
    norm := 0
    objective := 0
    objective_multiplier := 1
    multipliers := ⟨[0], [0], [0], 1⟩
    is_relaxed := false
    constraint_partition := ⟨[0], [], [.FEASIBLE]⟩ }

/-- C10 witness: with rejecting strategies, both `is_acceptable` functions still
accept a zero step. -/
theorem zero_step_is_accepted_unconditionally_witness :
    (l1_is_acceptable l1ContextC10 l1StateC10 iterateC3 iterateC3 directionC10
      (fun a => a) 1).accept = true ∧
    (FR_is_acceptable contextC3 stateC3 iterateC3 iterateC3 directionC10
      0).accept = true := by
  have h := zero_step_is_accepted_unconditionally l1ContextC10 l1StateC10 iterateC3
    iterateC3 directionC10 (fun a => a) 1 contextC3 stateC3 iterateC3 iterateC3
    directionC10 0 rfl (by norm_num [directionC10])
  exact ⟨h.1.1, h.2.1⟩

/-! ### C9: trust-region collapse and the driver's catch -/

/-- `TrustLineSearch::termination`
(`src/src/base/globalization_mechanism/TrustLineSearch.cpp`): accepted steps
terminate the trial loop; the iteration limit and a radius below `10⁻¹⁶` throw
`std::out_of_range`, modelled as `Except.error`. -/
def TLS_termination (max_iterations : ℤ) (radius : ℚ) (is_accepted : Bool)
    (iteration : ℤ) : Except String Bool :=
  if is_accepted then Except.ok true
  else if max_iterations < iteration then
    Except.error "Trust-line-search iteration limit reached"
  else if radius < 1 / 10 ^ 16 then
    Except.error "Trust-line-search radius became too small"
  else Except.ok false

/-- The evaluation counters surfaced in `Result`
(`Iterate::number_eval_objective` and friends). -/
structure Counters where
  objective : ℕ
  constraints : ℕ
  jacobian : ℕ
  deriving DecidableEq, Repr

/-- The fields of `Result` relevant to the embedded driver. -/
structure SolveResult where
  termination_status : TerminationStatus
  iterate : Iterate
  major_iterations : ℕ
  counters : Counters
  deriving Repr

/-- `Iterate::evaluate_objective` with its evaluation counter: evaluate and
count only when the cached value is missing. -/
def evaluate_objective_with_count (objective_fn : List ℚ → ℚ) (iterate : Iterate)
    (counters : Counters) : Iterate × Counters :=
  if iterate.is_objective_computed then (iterate, counters)
  else
    ({ iterate with objective := objective_fn iterate.x, is_objective_computed := true },
     { counters with objective := counters.objective + 1 })

/-- `Uno::termination_criterion`: stop when the status is decided or the
iteration cap is reached. -/
def termination_criterion (max_iterations : ℕ) (current_status : TerminationStatus)
    (iteration : ℕ) : Bool :=
  decide (current_status ≠ TerminationStatus.NOT_OPTIMAL) ||
    decide (max_iterations ≤ iteration)

/-- The `while` loop of `Uno::solve` with its surrounding `try/catch`: the
globalization mechanism is an oracle that either produces a new iterate, the
step norm and updated counters, or throws. A thrown exception leaves the loop
with the current iterate, status and counters intact (the `Bool` records that an
exception was caught). The fuel is one more than the remaining iterations. -/
def solve_loop
    (mechanism : ℕ → Iterate → Counters → Except String (Iterate × ℚ × Counters))
    (tolerance small_step_factor : ℚ) (number_variables max_iterations : ℕ) :
    ℕ → ℕ → TerminationStatus → Iterate → Counters →
      ℕ × TerminationStatus × Iterate × Counters × Bool
  | 0, k, status, current, counters => (k, status, current, counters, false)
  | fuel + 1, k, status, current, counters =>
    if termination_criterion max_iterations status k then
      (k, status, current, counters, false)
    else
      match mechanism (k + 1) current counters with
      | Except.error _ => (k + 1, status, current, counters, true)
      | Except.ok (new_iterate, step_norm, counters1) =>
        solve_loop mechanism tolerance small_step_factor number_variables
          max_iterations fuel (k + 1)
          (check_termination tolerance small_step_factor number_variables
            new_iterate.residuals new_iterate.multipliers (some step_norm))
          new_iterate counters1

/-- `Uno::solve` (`src/uno/Uno.cpp`): initial termination check at an infinite
step norm, the guarded loop with its catch, the final objective evaluation, and
the `Result` assembly. It is total: every run, exceptional or not, produces a
`SolveResult` holding the current iterate and the counters. -/
def Uno_solve
    (mechanism : ℕ → Iterate → Counters → Except String (Iterate × ℚ × Counters))
    (tolerance small_step_factor : ℚ) (number_variables max_iterations : ℕ)
    (objective_fn : List ℚ → ℚ) (current_iterate : Iterate) (counters : Counters) :
    SolveResult :=
  let status0 := check_termination tolerance small_step_factor number_variables
    current_iterate.residuals current_iterate.multipliers none
  let final := solve_loop mechanism tolerance small_step_factor number_variables
    max_iterations (max_iterations + 1) 0 status0 current_iterate counters
  let evaluated := evaluate_objective_with_count objective_fn final.2.2.1 final.2.2.2.1
  { termination_status := final.2.1, iterate := evaluated.1,
    major_iterations := final.1, counters := evaluated.2 }

/-- C9: (a) when the radius falls strictly below `10⁻¹⁶` during the trial loop
(step not accepted, iteration limit not yet hit), `TrustLineSearch::termination`
raises the fatal radius error; (b) the driver's loop catches a mechanism error
at any iteration, keeping the current iterate, status and counters; (c) the
driver still returns a `SolveResult` carrying the current iterate's point and
multipliers and the evaluation counters when the very first mechanism call
throws. -/
theorem trust_region_collapse_is_caught (max_iterations_tls : ℤ) (radius : ℚ)
    (iteration : ℤ)
    (mechanism : ℕ → Iterate → Counters → Except String (Iterate × ℚ × Counters))
    (tolerance small_step_factor : ℚ) (number_variables max_iterations : ℕ)
    (objective_fn : List ℚ → ℚ) (current_iterate : Iterate) (counters : Counters)
    (msg : String)
    (hradius : radius < 1 / 10 ^ 16) (hiter : iteration ≤ max_iterations_tls) :
    TLS_termination max_iterations_tls radius false iteration =
      Except.error "Trust-line-search radius became too small" ∧
    (∀ (fuel k : ℕ) (status : TerminationStatus) (cur : Iterate) (cnt : Counters),
      termination_criterion max_iterations status k = false →
      mechanism (k + 1) cur cnt = Except.error msg →
      solve_loop mechanism tolerance small_step_factor number_variables
        max_iterations (fuel + 1) k status cur cnt = (k + 1, status, cur, cnt, true)) ∧
    (mechanism 1 current_iterate counters = Except.error msg →
      check_termination tolerance small_step_factor number_variables
        current_iterate.residuals current_iterate.multipliers none =
        TerminationStatus.NOT_OPTIMAL →
      1 ≤ max_iterations →
      (Uno_solve mechanism tolerance small_step_factor number_variables
        max_iterations objective_fn current_iterate counters).major_iterations = 1 ∧
      (Uno_solve mechanism tolerance small_step_factor number_variables
        max_iterations objective_fn current_iterate counters).termination_status =
        TerminationStatus.NOT_OPTIMAL ∧
      (Uno_solve mechanism tolerance small_step_factor number_variables
        max_iterations objective_fn current_iterate counters).iterate.x =
        current_iterate.x ∧
      (Uno_solve mechanism tolerance small_step_factor number_variables
        max_iterations objective_fn current_iterate counters).iterate.multipliers =
        current_iterate.multipliers ∧
      (Uno_solve mechanism tolerance small_step_factor number_variables
        max_iterations objective_fn current_iterate counters).counters.constraints =
        counters.constraints ∧
      (Uno_solve mechanism tolerance small_step_factor number_variables
        max_iterations objective_fn current_iterate counters).counters.jacobian =
        counters.jacobian) := by
  refine ⟨?_, ?_, ?_⟩
  · unfold TLS_termination
    rw [if_neg (by simp), if_neg (not_lt.mpr hiter), if_pos hradius]
  · intro fuel k status cur cnt hguard herr
    simp [solve_loop, hguard, herr]
  · intro herr hstatus hmax
    have hguard : termination_criterion max_iterations TerminationStatus.NOT_OPTIMAL 0 =
        false := by
      simp [termination_criterion, Nat.not_le.mpr (Nat.lt_of_lt_of_le Nat.zero_lt_one hmax)]
    cases hmaxcase : max_iterations with
    | zero => omega
    | succ m =>
      simp only [Uno_solve, hstatus, hmaxcase] at *
      simp only [solve_loop, hguard, herr] at *
      simp [evaluate_objective_with_count]
      split_ifs <;> simp

/-- Concrete iterate for the C9 witness: all residuals `1`, so that with
tolerance `1/2` the initial status is `NOT_OPTIMAL`. -/
def iterateC9 : Iterate :=
  { x := [7]
    multipliers := ⟨[0], [0], [0], 1⟩
    constraints := [0]
    constraints_jacobian := [[(0, 1)]]
    errors := ⟨0⟩
    progress := (0, 0)
    objective := 0
    is_objective_computed := true
    residuals := ⟨1, 1, 1, 1, 1, 1, 1⟩ }

/-- C9 witness: the radius `10⁻¹⁷ < 10⁻¹⁶` raises the fatal radius error, and a
driver whose mechanism throws on its first call still returns a result with one
major iteration and the initial point. -/
theorem trust_region_collapse_is_caught_witness :
    TLS_termination 10 (1 / 10 ^ 17) false 3 =
      Except.error "Trust-line-search radius became too small" ∧
    (Uno_solve (fun _ _ _ => Except.error "mechanism failure") (1/2) 100 1 5
      (fun _ => 0) iterateC9 ⟨2, 3, 4⟩).major_iterations = 1 ∧
    (Uno_solve (fun _ _ _ => Except.error "mechanism failure") (1/2) 100 1 5
      (fun _ => 0) iterateC9 ⟨2, 3, 4⟩).iterate.x = iterateC9.x := by
  have h := trust_region_collapse_is_caught 10 (1 / 10 ^ 17) 3
    (fun _ _ _ => Except.error "mechanism failure") (1/2) 100 1 5 (fun _ => 0)
    iterateC9 ⟨2, 3, 4⟩ "mechanism failure" (by norm_num) (by norm_num)
  have h3 := h.2.2 rfl
    (by norm_num [check_termination, iterateC9, small_step_test,
      not_all_zero_multipliers])
    (by norm_num)
  exact ⟨h.1, h3.1, h3.2.2.1⟩

end Uno
